import Mathlib

/-!
The site configuration record of `src/data/siteMetadata.js`.

The module is a single object literal bound to `siteMetadata` and exported
with `module.exports = siteMetadata`.  It is embedded as a tree of JavaScript
values: an object literal is the list of its `key: value` entries in source
order, a quoted literal is a string.  Entries that are commented out in the
source are not part of the literal and therefore do not appear in the tree.
-/

namespace SiteMetadata

/-- JavaScript values that a configuration literal can hold.  The source only
uses string literals and nested object literals; the other primitive kinds are
kept so that "is a string" is a property and not a tautology. -/
inductive JSValue where
  | undefined : JSValue
  | null : JSValue
  | bool : Bool → JSValue
  | num : Int → JSValue
  | str : String → JSValue
  | obj : List (String × JSValue) → JSValue

/-- Own entries of a value: the `key: value` pairs of an object literal, and
nothing for a primitive. -/
def entries : JSValue → List (String × JSValue)
  | .obj fs => fs
  | _ => []

/-- Own property names, in source order (`Object.keys`). -/
def keys (v : JSValue) : List String :=
  (entries v).map Prod.fst

/-- Value bound to `k` in a list of entries.  When a literal repeats a key the
later entry wins, as in JavaScript. -/
def lookup (k : String) : List (String × JSValue) → Option JSValue
  | [] => none
  | (k', v) :: rest =>
    match lookup k rest with
    | some w => some w
    | none => if k' = k then some v else none

/-- Own property read `v[k]`; `none` stands for an absent property. -/
def get (v : JSValue) (k : String) : Option JSValue :=
  lookup k (entries v)

/-- Chained property read `v.k1.k2...`; `none` as soon as a step is absent. -/
def getPath (v : JSValue) : List String → Option JSValue
  | [] => some v
  | k :: ks =>
    match get v k with
    | some w => getPath w ks
    | none => none

/-- Own property test (`Object.hasOwn`). -/
def hasKey (v : JSValue) (k : String) : Bool :=
  (keys v).contains k

/-- The string held by a value, if the value is a string (`typeof v === "string"`). -/
def asString : JSValue → Option String
  | .str s => some s
  | _ => none

/-- String read along a path: `some s` exactly when the path exists and ends in
the string `s`. -/
def getString (v : JSValue) (path : List String) : Option String :=
  match getPath v path with
  | some w => asString w
  | none => none

/-- The `analytics` block (source lines 21-39).  Only `googleAnalytics` is
live; the umami, plausible, simple-analytics and posthog blocks are comments. -/
def analytics : JSValue :=
  .obj [
    ("googleAnalytics", .obj [
      ("googleAnalyticsId", .str "G-V449656PFE")])]

/-- The `giscusConfig` block (source lines 51-73). -/
def giscusConfig : JSValue :=
  .obj [
    ("repo", .str "daphne-dev/daphne-dev.github.io"),
    ("repositoryId", .str "R_kgDOLAbwOw"),
    ("category", .str "General"),
    ("categoryId", .str "DIC_kwDOLAbwO84CcLy2"),
    ("mapping", .str "pathname"),
    ("reactions", .str "1"),
    ("metadata", .str "0"),
    ("theme", .str "light"),
    ("darkTheme", .str "transparent_dark"),
    ("themeURL", .str ""),
    ("lang", .str "ko")]

/-- The `comments` block (source lines 45-74). -/
def comments : JSValue :=
  .obj [
    ("provider", .str "giscus"),
    ("giscusConfig", giscusConfig)]

/-- The `search` block (source lines 75-88).  The algolia provider and its
`algoliaConfig` are comments. -/
def search : JSValue :=
  .obj [
    ("provider", .str "kbar"),
    ("kbarConfig", .obj [
      ("searchDocumentsPath", .str "search.json")])]

/-- The object literal bound to `siteMetadata` (source lines 2-89).  The title
is written `Daphne\x27s blog` for the apostrophe of the source. -/
def siteMetadata : JSValue :=
  .obj [
    ("title", .str "Daphne\x27s blog"),
    ("author", .str "Daphne"),
    ("headerTitle", .str "daphne.log"),
    ("description", .str "Daphne의 개발 블로그입니다"),
    ("language", .str "ko"),
    ("theme", .str "system"),
    ("siteUrl", .str "https://daphne-dev.github.io"),
    ("siteRepo", .str "git@github.com:daphne-dev/daphne-dev.github.io.git"),
    ("siteLogo", .str "/static/images/logo.png"),
    ("socialBanner", .str "/static/images/blog-card.png"),
    ("mastodon", .str "https://mastodon.social/@mastodonuser"),
    ("email", .str "daphne01215@gmail.com"),
    ("github", .str "https://github.com/daphne-dev"),
    ("locale", .str "ko-KR"),
    ("analytics", analytics),
    ("comments", comments),
    ("search", search)]

/-- The value the module exports: `module.exports = siteMetadata`. -/
def moduleExports : JSValue := siteMetadata

/-- Analytics provider keys named in the source (the live block and the four
commented-out ones, lines 25-36). -/
def analyticsProviderKeys : List String :=
  ["umamiAnalytics", "plausibleAnalytics", "simpleAnalytics", "posthogAnalytics",
   "googleAnalytics"]

/-- Comment providers listed at source line 50. -/
def supportedCommentProviders : List String := ["giscus", "utterances", "disqus"]

/-- Mapping options listed at source line 58. -/
def supportedMappings : List String := ["pathname", "url", "title"]

/-- Search providers listed at source line 76. -/
def supportedSearchProviders : List String := ["kbar", "algolia"]

/-- Site theme values listed at source line 8. -/
def supportedThemes : List String := ["system", "dark", "light"]

/-- Giscus theme names listed at source lines 62-63. -/
def giscusThemes : List String :=
  ["light", "dark", "dark_dimmed", "dark_high_contrast", "transparent_dark",
   "preferred_color_scheme", "custom"]

/-- Keys of a block other than its `provider` selector: the provider
configuration blocks it carries. -/
def providerConfigs (v : JSValue) : List String :=
  (keys v).filter (fun k => k != "provider")

mutual
/-- Every property name occurring in a value, at any depth, in source order. -/
def deepKeys : JSValue → List String
  | .obj fs => deepKeysList fs
  | _ => []
/-- Property names occurring in a list of entries, at any depth. -/
def deepKeysList : List (String × JSValue) → List String
  | [] => []
  | (k, v) :: rest => k :: (deepKeys v ++ deepKeysList rest)
end

/-- A block selects exactly one provider and carries exactly the matching
configuration: its `provider` is a string `p` and its only other entry is
`pConfig`. -/
def selectsOneProvider (v : JSValue) : Prop :=
  ∃ p, getString v ["provider"] = some p ∧ providerConfigs v = [p ++ "Config"]

/-- The value at `path` is a string and is not the empty string. -/
def nonEmptyStringAt (v : JSValue) (path : List String) : Prop :=
  ∃ s, getString v path = some s ∧ s ≠ ""

/-- The rule of source lines 67-69 for a giscus configuration: when `theme` is
`custom`, `themeURL` holds a non-empty link. -/
def customThemeHasURL (cfg : JSValue) : Prop :=
  getString cfg ["theme"] = some "custom" → nonEmptyStringAt cfg ["themeURL"]

/-! General facts about property reads -/

/-- A key reads as absent exactly when it is not among the entry names. -/
theorem lookup_eq_none_iff (k : String) (fs : List (String × JSValue)) :
    lookup k fs = none ↔ k ∉ fs.map Prod.fst := by
  induction fs with
  | nil => simp [lookup]
  | cons p rest ih =>
    obtain ⟨k', v⟩ := p
    cases h : lookup k rest with
    | some w =>
      have : ¬ (k ∉ rest.map Prod.fst) := fun hn => by simp [ih.mpr hn] at h
      simp only [lookup, h]
      simp at this ⊢
      tauto
    | none =>
      have hn := ih.mp h
      simp only [lookup, h]
      by_cases hk : k' = k
      · simp [hk]
      · simp at hn ⊢
        simp [hk]
        refine ⟨fun h => hk h.symm, hn⟩

/-- A property read gives `none` exactly when the value has no such own key. -/
theorem get_eq_none_iff (v : JSValue) (k : String) :
    get v k = none ↔ hasKey v k = false := by
  unfold get hasKey keys
  rw [lookup_eq_none_iff]
  simp

/-- The three blocks sit in the exported record under their own names. -/
theorem blocks_of_exports :
    get moduleExports "analytics" = some analytics ∧
    get moduleExports "comments" = some comments ∧
    get moduleExports "search" = some search ∧
    get comments "giscusConfig" = some giscusConfig :=
  ⟨rfl, rfl, rfl, rfl⟩

/-- No object literal of the record repeats a key, so every read is unambiguous. -/
theorem keys_nodup :
    (keys moduleExports).Nodup ∧ (keys analytics).Nodup ∧ (keys comments).Nodup ∧
    (keys giscusConfig).Nodup ∧ (keys search).Nodup := by
  decide

/-- The one-provider predicate is not vacuous: a block that carries a second
provider configuration, or none, does not satisfy it. -/
theorem selectsOneProvider_rejects :
    ¬ selectsOneProvider (.obj [("provider", .str "kbar"),
        ("kbarConfig", .obj []), ("algoliaConfig", .obj [])]) ∧
    ¬ selectsOneProvider (.obj [("provider", .str "kbar")]) := by
  constructor
  · rintro ⟨p, _, hc⟩
    have hl : (2 : Nat) = 1 := congrArg List.length hc
    exact absurd hl (by decide)
  · rintro ⟨p, _, hc⟩
    have hl : (0 : Nat) = 1 := congrArg List.length hc
    exact absurd hl (by decide)

/-- The custom-theme rule is not vacuous: `theme: custom` with an empty
`themeURL` violates it. -/
theorem customThemeHasURL_rejects :
    ¬ customThemeHasURL (.obj [("theme", .str "custom"), ("themeURL", .str "")]) := by
  intro h
  obtain ⟨u, hu, hne⟩ := h rfl
  have : u = "" := by
    have h2 : getString (.obj [("theme", .str "custom"), ("themeURL", .str "")])
        ["themeURL"] = some "" := rfl
    rw [h2] at hu
    exact (Option.some.inj hu).symm
  exact hne this

/-! Properties of the exported record -/

/-- C1: in the exported record, `analytics.googleAnalytics.googleAnalyticsId`
is the string `G-V449656PFE` itself: a string value, twelve characters long,
with no whitespace in it. -/
theorem googleAnalyticsId_exact :
    getPath moduleExports ["analytics", "googleAnalytics", "googleAnalyticsId"]
      = some (.str "G-V449656PFE") ∧
    getString moduleExports ["analytics", "googleAnalytics", "googleAnalyticsId"]
      = some "G-V449656PFE" ∧
    (getString moduleExports ["analytics", "googleAnalytics", "googleAnalyticsId"]).map
      String.length = some 12 ∧
    (getString moduleExports ["analytics", "googleAnalytics", "googleAnalyticsId"]).map
      (fun s => s.toList.any Char.isWhitespace) = some false :=
  ⟨rfl, by decide, by decide, by decide⟩

/-- C2: in the exported record, `search.provider` is `kbar`,
`search.kbarConfig.searchDocumentsPath` is the relative path `search.json`,
and the search block holds no remote credentials: it has no `algoliaConfig`,
and no `appId`, `apiKey` or `indexName` key at any depth. -/
theorem search_kbar_no_credentials :
    get moduleExports "search" = some search ∧
    getString moduleExports ["search", "provider"] = some "kbar" ∧
    getString moduleExports ["search", "kbarConfig", "searchDocumentsPath"]
      = some "search.json" ∧
    (getString moduleExports ["search", "kbarConfig", "searchDocumentsPath"]).map
      (fun s => decide (s.toList.take 1 = "/".toList)) = some false ∧
    getPath moduleExports ["search", "algoliaConfig"] = none ∧
    hasKey search "algoliaConfig" = false ∧
    deepKeys search = ["provider", "kbarConfig", "searchDocumentsPath"] ∧
    "appId" ∉ deepKeys search ∧ "apiKey" ∉ deepKeys search ∧
    "indexName" ∉ deepKeys search :=
  ⟨rfl, by decide, by decide, by decide, rfl, by decide, by decide, by decide, by decide,
    by decide⟩

/-- C3: the analytics block of the exported record selects at most one
provider: of the five provider keys only `googleAnalytics` is present, and
`umamiAnalytics`, `plausibleAnalytics`, `simpleAnalytics` and
`posthogAnalytics` are absent. -/
theorem analytics_single_provider :
    get moduleExports "analytics" = some analytics ∧
    keys analytics = ["googleAnalytics"] ∧
    analyticsProviderKeys.filter (hasKey analytics) = ["googleAnalytics"] ∧
    (analyticsProviderKeys.filter (hasKey analytics)).length ≤ 1 ∧
    hasKey analytics "googleAnalytics" = true ∧
    get analytics "umamiAnalytics" = none ∧
    get analytics "plausibleAnalytics" = none ∧
    get analytics "simpleAnalytics" = none ∧
    get analytics "posthogAnalytics" = none :=
  ⟨rfl, by decide, by decide, by decide, by decide, rfl, rfl, rfl, rfl⟩

/-- C4: the exported record has exactly one comments provider block and exactly
one search provider block, each matching its selector: `comments.provider` is
`giscus` and the only configuration under `comments` is `giscusConfig`;
`search.provider` is `kbar` and the only configuration under `search` is
`kbarConfig`. -/
theorem comments_search_one_provider :
    get moduleExports "comments" = some comments ∧
    get moduleExports "search" = some search ∧
    selectsOneProvider comments ∧ selectsOneProvider search ∧
    getString comments ["provider"] = some "giscus" ∧
    providerConfigs comments = ["giscusConfig"] ∧
    keys comments = ["provider", "giscusConfig"] ∧
    getString search ["provider"] = some "kbar" ∧
    providerConfigs search = ["kbarConfig"] ∧
    keys search = ["provider", "kbarConfig"] :=
  ⟨rfl, rfl, ⟨"giscus", by decide, by decide⟩, ⟨"kbar", by decide, by decide⟩,
    by decide, by decide, by decide, by decide, by decide, by decide⟩

/-- C5: the top-level `theme` of the exported record is `system`, one of the
three allowed values `system`, `dark`, `light`. -/
theorem theme_allowed :
    getPath moduleExports ["theme"] = some (.str "system") ∧
    ∃ t, getString moduleExports ["theme"] = some t ∧ t = "system" ∧
      t ∈ supportedThemes :=
  ⟨rfl, "system", by decide, rfl, by decide⟩

/-- C6: in `comments.giscusConfig` of the exported record, `reactions` and
`metadata` are string values, each one of the literals `1` and `0`:
`reactions` is the string `1` and `metadata` is the string `0`. -/
theorem giscus_flags :
    getPath moduleExports ["comments", "giscusConfig", "reactions"] = some (.str "1") ∧
    getPath moduleExports ["comments", "giscusConfig", "metadata"] = some (.str "0") ∧
    (∃ r, getString moduleExports ["comments", "giscusConfig", "reactions"] = some r ∧
      r ∈ ["1", "0"] ∧ r = "1") ∧
    (∃ m, getString moduleExports ["comments", "giscusConfig", "metadata"] = some m ∧
      m ∈ ["1", "0"] ∧ m = "0") :=
  ⟨rfl, rfl, ⟨"1", by decide, by decide, rfl⟩, ⟨"0", by decide, by decide, rfl⟩⟩

/-- C7: every required identifier of each selected provider in the exported
record is a non-empty string: `googleAnalyticsId` for analytics; `repo`,
`repositoryId`, `category` and `categoryId` of `giscusConfig` for comments;
`searchDocumentsPath` of `kbarConfig` for search. -/
theorem required_identifiers_nonempty :
    nonEmptyStringAt moduleExports ["analytics", "googleAnalytics", "googleAnalyticsId"] ∧
    nonEmptyStringAt moduleExports ["comments", "giscusConfig", "repo"] ∧
    nonEmptyStringAt moduleExports ["comments", "giscusConfig", "repositoryId"] ∧
    nonEmptyStringAt moduleExports ["comments", "giscusConfig", "category"] ∧
    nonEmptyStringAt moduleExports ["comments", "giscusConfig", "categoryId"] ∧
    nonEmptyStringAt moduleExports ["search", "kbarConfig", "searchDocumentsPath"] :=
  ⟨⟨"G-V449656PFE", by decide, by decide⟩,
    ⟨"daphne-dev/daphne-dev.github.io", by decide, by decide⟩,
    ⟨"R_kgDOLAbwOw", by decide, by decide⟩,
    ⟨"General", by decide, by decide⟩,
    ⟨"DIC_kwDOLAbwO84CcLy2", by decide, by decide⟩,
    ⟨"search.json", by decide, by decide⟩⟩

/-- C8: each selector of the exported record takes a value from its listed
set: `comments.provider` among giscus, utterances, disqus;
`comments.giscusConfig.mapping` among pathname, url, title; `search.provider`
among kbar, algolia. -/
theorem selectors_in_closed_sets :
    (∃ p, getString moduleExports ["comments", "provider"] = some p ∧
      p ∈ supportedCommentProviders) ∧
    (∃ m, getString moduleExports ["comments", "giscusConfig", "mapping"] = some m ∧
      m ∈ supportedMappings) ∧
    (∃ p, getString moduleExports ["search", "provider"] = some p ∧
      p ∈ supportedSearchProviders) :=
  ⟨⟨"giscus", by decide, by decide⟩, ⟨"pathname", by decide, by decide⟩,
    ⟨"kbar", by decide, by decide⟩⟩

/-- C9: `comments.giscusConfig` of the exported record exposes both a
light-mode and a dark-mode theme: `theme` is `light`, `darkTheme` is
`transparent_dark`, both are names of the giscus theme list, and they differ. -/
theorem giscus_both_themes :
    hasKey giscusConfig "theme" = true ∧ hasKey giscusConfig "darkTheme" = true ∧
    ∃ t d, getString moduleExports ["comments", "giscusConfig", "theme"] = some t ∧
      getString moduleExports ["comments", "giscusConfig", "darkTheme"] = some d ∧
      t = "light" ∧ d = "transparent_dark" ∧
      t ∈ giscusThemes ∧ d ∈ giscusThemes ∧ d ≠ t :=
  ⟨by decide, by decide, "light", "transparent_dark", by decide, by decide, rfl, rfl,
    by decide, by decide, by decide⟩

/-- C10: `comments.giscusConfig` of the exported record meets the custom-theme
rule (a `custom` theme comes with a non-empty `themeURL`): its theme is
`light`, which is not `custom`, and its `themeURL` is the empty string. -/
theorem giscus_custom_theme_rule :
    getPath moduleExports ["comments", "giscusConfig"] = some giscusConfig ∧
    customThemeHasURL giscusConfig ∧
    getString giscusConfig ["theme"] = some "light" ∧
    getString giscusConfig ["theme"] ≠ some "custom" ∧
    getPath giscusConfig ["themeURL"] = some (.str "") :=
  ⟨rfl, fun h => absurd h (by decide), by decide, by decide, rfl⟩

end SiteMetadata
